import Mathlib

/-!
Shallow embedding of the `eqstochsim` formula library
(`src/eqstochsim/eqphysics.py` and `src/eqstochsim/models.py`).

Scalars of the Python code become real numbers; numpy arrays become lists of
real numbers processed element-wise via `List.map`; a Python function that can
raise (`assert`, `raise ValueError`) becomes a function into `Except String _`.
`np.log10` is `Real.logb 10`, `np.log` is `Real.log`, a float power `x ** y`
is the real power `Real.rpow`, and `np.power (_, 2)` is the natural power
`_ ^ 2`.
-/

open Real

namespace Eqstochsim

/-- `eqphysics.mo_from_mw`: `10**((3 / 2) * (mw + c))`. -/
noncomputable def mo_from_mw (mw c : ℝ) : ℝ :=
  (10 : ℝ) ^ ((3 / 2) * (mw + c))

/-- `eqphysics.mw` (real-valued part): `(2 / 3) * np.log10(mo) + c`. -/
noncomputable def mw (mo c : ℝ) : ℝ :=
  (2 / 3) * Real.logb 10 mo + c

/-- IEEE-754 result sort for modelling how numpy primitives behave outside
their real domain: a finite real, one of the two infinities, or NaN. -/
inductive RFloat where
  | finite (x : ℝ) : RFloat
  | neginf : RFloat
  | posinf : RFloat
  | nan : RFloat

/-- `np.log10` with its IEEE-754 semantics: the real `log10` on positive
input, `-inf` at `0`, NaN on negative input (numpy emits a warning and
returns the special value; it does not raise). -/
noncomputable def np_log10 (x : ℝ) : RFloat :=
  if 0 < x then .finite (Real.logb 10 x)
  else if x = 0 then .neginf
  else .nan

/-- Multiplication of an IEEE value by a positive finite real constant:
it preserves both infinities and NaN. -/
noncomputable def RFloat.scalePos (c : ℝ) : RFloat → RFloat
  | .finite x => .finite (c * x)
  | .neginf => .neginf
  | .posinf => .posinf
  | .nan => .nan

/-- Addition of a finite real constant to an IEEE value:
it preserves both infinities and NaN. -/
noncomputable def RFloat.addFin (c : ℝ) : RFloat → RFloat
  | .finite x => .finite (x + c)
  | .neginf => .neginf
  | .posinf => .posinf
  | .nan => .nan

/-- `eqphysics.mw` with the IEEE-754 behaviour of `np.log10` made explicit:
`(2 / 3) * np.log10(mo) + c`, where the scalar multiply and add propagate
non-finite values. -/
noncomputable def mwF (mo c : ℝ) : RFloat :=
  ((np_log10 mo).scalePos (2 / 3)).addFin c

/-- One element of `models.source_scf`:
`llpsp - (1 / gam) * np.log10(1 + (f / fc)**(gam * n))`. -/
noncomputable def source_scf_kernel (f llpsp fc gam n : ℝ) : ℝ :=
  llpsp - (1 / gam) * Real.logb 10 (1 + (f / fc) ^ (gam * n))

/-- `models.source_scf` applied element-wise to a frequency array. -/
noncomputable def source_scf (f : List ℝ) (llpsp fc gam n : ℝ) : List ℝ :=
  f.map (fun x => source_scf_kernel x llpsp fc gam n)

/-- Result of `models.motion_factor`: the Python code returns the scalar `0`
for `'disp'` and a numpy array for `'vel'` / `'acc'`. -/
inductive MotionOut where
  | scalar (x : ℝ) : MotionOut
  | arr (l : List ℝ) : MotionOut

/-- One element of the `'vel'` branch of `models.motion_factor`:
`np.log10(2 * np.pi * f)`. -/
noncomputable def motion_vel_kernel (f : ℝ) : ℝ :=
  Real.logb 10 (2 * Real.pi * f)

/-- One element of the `'acc'` branch of `models.motion_factor`:
`np.log10(np.power(2 * np.pi * f, 2))`. -/
noncomputable def motion_acc_kernel (f : ℝ) : ℝ :=
  Real.logb 10 ((2 * Real.pi * f) ^ 2)

/-- Python's `str.lower()` on the ASCII option strings used by
`motion_factor`: lowercase every character. -/
def pyLower (s : String) : String :=
  String.mk (s.data.map Char.toLower)

/-- `models.motion_factor`: case-insensitive match of `motion` against
`['disp', 'vel', 'acc']`; any other string raises
`ValueError(f"Motion must be {gms}")`. -/
noncomputable def motion_factor (f : List ℝ) (motion : String) :
    Except String MotionOut :=
  let gms := ["disp", "vel", "acc"]
  if pyLower motion ∉ gms then
    Except.error "Motion must be ['disp', 'vel', 'acc']"
  else if pyLower motion = "disp" then
    Except.ok (MotionOut.scalar 0)
  else if pyLower motion = "vel" then
    Except.ok (MotionOut.arr (f.map motion_vel_kernel))
  else
    Except.ok (MotionOut.arr (f.map motion_acc_kernel))

/-- One element of `models.f_idep_attenutation` (name as in the source):
`-(((np.pi * f * R) / (Q * b)) / np.log(10))`. -/
noncomputable def f_idep_kernel (f Q R b : ℝ) : ℝ :=
  -(((Real.pi * f * R) / (Q * b)) / Real.log 10)

/-- `models.f_idep_attenutation` applied element-wise to a frequency array. -/
noncomputable def f_idep_attenutation (f : List ℝ) (Q R b : ℝ) : List ℝ :=
  f.map (fun x => f_idep_kernel x Q R b)

/-- One element of `models.f_dep_attenuation` past the assert:
`-(np.pi * (f**(1 - a)) * (R / Q * b) / np.log(10))`. -/
noncomputable def f_dep_kernel (f a Q R b : ℝ) : ℝ :=
  -(Real.pi * f ^ (1 - a) * (R / Q * b) / Real.log 10)

/-- `models.f_dep_attenuation`: first `assert 0 <= a < 1` (an `AssertionError`
when violated), then the formula element-wise over the frequency array. -/
noncomputable def f_dep_attenuation (f : List ℝ) (a Q R b : ℝ) :
    Except String (List ℝ) :=
  if 0 ≤ a ∧ a < 1 then
    Except.ok (f.map (fun x => f_dep_kernel x a Q R b))
  else
    Except.error "a must be in range 0 <= a < 1."

/-- `models.single_geospreading` on a scalar: `-p * np.log10(R)`. -/
noncomputable def single_geospreading (R p : ℝ) : ℝ :=
  -p * Real.logb 10 R

/-- `models.single_geospreading` on an array argument `R` (numpy broadcasts
`np.log10` element-wise). -/
noncomputable def single_geospreading_arr (R : List ℝ) (p : ℝ) : List ℝ :=
  R.map (fun x => single_geospreading x p)

end Eqstochsim

namespace Eqstochsim

/-- Helper: the round trip through `mo_from_mw` and `mw` adds `2 * c` to the
input, because `mw` adds the constant `c` instead of subtracting it. -/
theorem mw_mo_from_mw (x c : ℝ) : mw (mo_from_mw x c) c = x + 2 * c := by
  unfold mw mo_from_mw
  rw [Real.logb_rpow (by norm_num) (by norm_num)]
  ring

/-- C1: the spec's round-trip contract `mw(mo_from_mw(x, c), c) == x` fails on
the code: at `x = 0`, `c = 6.0333` the round trip returns `12.0666 = 2 * c`,
which is not `0` (nor within any floating-point tolerance of it). -/
theorem mw_roundtrip_fails_at_zero :
    mw (mo_from_mw 0 6.0333) 6.0333 = 12.0666 ∧ (12.0666 : ℝ) ≠ 0 := by
  refine ⟨?_, by norm_num⟩
  rw [mw_mo_from_mw]
  norm_num

/-- C2: for `0 <= a < 1`, `f_dep_attenuation` returns element-wise
`-π·f^(1-a)·(R/Q·b) / ln(10)`, where the grouping `(R/Q·b)` multiplies `b`
(equivalently `-π·f^(1-a)·R·b / (Q·ln(10))`) rather than dividing by it. -/
theorem f_dep_attenuation_formula (f : List ℝ) (a Q R b : ℝ)
    (h0 : 0 ≤ a) (h1 : a < 1) :
    f_dep_attenuation f a Q R b =
      Except.ok (f.map (fun x =>
        -(Real.pi * x ^ (1 - a) * (R / Q * b) / Real.log 10))) ∧
    f_dep_attenuation f a Q R b =
      Except.ok (f.map (fun x =>
        -(Real.pi * x ^ (1 - a) * R * b / (Q * Real.log 10)))) := by
  unfold f_dep_attenuation f_dep_kernel
  rw [if_pos ⟨h0, h1⟩]
  refine ⟨rfl, ?_⟩
  have hfun : (fun x : ℝ =>
      -(Real.pi * x ^ (1 - a) * (R / Q * b) / Real.log 10)) = fun x : ℝ =>
      -(Real.pi * x ^ (1 - a) * R * b / (Q * Real.log 10)) := by
    funext x
    ring
  rw [hfun]

/-- C2 witness at `f = [1]`, `a = 0`, `Q = 1`, `R = 1`, `b = 1`. -/
theorem f_dep_attenuation_formula_witness :
    (0 : ℝ) ≤ 0 ∧ (0 : ℝ) < 1 ∧
    f_dep_attenuation [1] 0 1 1 1 =
      Except.ok ([(1 : ℝ)].map (fun x =>
        -(Real.pi * x ^ (1 - (0 : ℝ)) * (1 / 1 * 1) / Real.log 10))) :=
  ⟨le_refl 0, by norm_num,
    (f_dep_attenuation_formula [1] 0 1 1 1 (le_refl 0) (by norm_num)).1⟩

/-- C3: `f_dep_attenuation` rejects any `a` outside `[0, 1)` with the
precondition-violation error before computing any result, and succeeds for
any `a` inside `[0, 1)`. -/
theorem f_dep_attenuation_guard (f : List ℝ) (a Q R b : ℝ) :
    (0 ≤ a ∧ a < 1 → ∃ l, f_dep_attenuation f a Q R b = Except.ok l) ∧
    (¬(0 ≤ a ∧ a < 1) →
      f_dep_attenuation f a Q R b =
        Except.error "a must be in range 0 <= a < 1.") := by
  unfold f_dep_attenuation
  constructor
  · intro h
    exact ⟨_, by rw [if_pos h]⟩
  · intro h
    rw [if_neg h]

/-- C3 witness: `a = 0` succeeds; `a = 1` raises the precondition error. -/
theorem f_dep_attenuation_guard_witness :
    (∃ l, f_dep_attenuation [1] 0 1 1 1 = Except.ok l) ∧
    f_dep_attenuation [1] 1 1 1 1 =
      Except.error "a must be in range 0 <= a < 1." :=
  ⟨(f_dep_attenuation_guard [1] 0 1 1 1).1 (by norm_num),
    (f_dep_attenuation_guard [1] 1 1 1 1).2 (by norm_num)⟩

/-- C4: `motion_factor` matches its option case-insensitively: lowercase
`'disp'` gives the scalar `0`, `'vel'` gives `log10(2πf)` element-wise,
`'acc'` gives `log10((2πf)^2)` element-wise, and any string whose lowercase
form is outside the set gives the invalid-argument error naming the set. -/
theorem motion_factor_cases (f : List ℝ) (s : String) :
    (pyLower s = "disp" → motion_factor f s = Except.ok (MotionOut.scalar 0)) ∧
    (pyLower s = "vel" → motion_factor f s =
      Except.ok (MotionOut.arr (f.map (fun x =>
        Real.logb 10 (2 * Real.pi * x))))) ∧
    (pyLower s = "acc" → motion_factor f s =
      Except.ok (MotionOut.arr (f.map (fun x =>
        Real.logb 10 ((2 * Real.pi * x) ^ 2))))) ∧
    (pyLower s ∉ ["disp", "vel", "acc"] →
      motion_factor f s =
        Except.error "Motion must be ['disp', 'vel', 'acc']") := by
  refine ⟨?_, ?_, ?_, ?_⟩ <;> intro h <;>
    simp [motion_factor, motion_vel_kernel, motion_acc_kernel, h]

/-- C4 witness: an uppercase `'DISP'` and `'VEL'` hit their branches, and
`'BAD'` hits the error. -/
theorem motion_factor_cases_witness :
    motion_factor [1] "DISP" = Except.ok (MotionOut.scalar 0) ∧
    motion_factor [1] "VEL" = Except.ok (MotionOut.arr ([(1 : ℝ)].map (fun x =>
      Real.logb 10 (2 * Real.pi * x)))) ∧
    motion_factor [1] "BAD" =
      Except.error "Motion must be ['disp', 'vel', 'acc']" :=
  ⟨(motion_factor_cases [1] "DISP").1 (by decide),
    (motion_factor_cases [1] "VEL").2.1 (by decide),
    (motion_factor_cases [1] "BAD").2.2.2 (by decide)⟩

/-- C5: for `mo > 0`, `mw` returns `(2/3)·log10(mo) + c`; for `mo = 0` it
propagates `-inf` and for `mo < 0` it propagates NaN from `np.log10`,
raising no exception. -/
theorem mw_domain (mo c : ℝ) :
    (0 < mo → mwF mo c = RFloat.finite ((2 / 3) * Real.logb 10 mo + c)) ∧
    mwF 0 c = RFloat.neginf ∧
    (mo < 0 → mwF mo c = RFloat.nan) := by
  unfold mwF np_log10
  refine ⟨?_, ?_, ?_⟩
  · intro h
    rw [if_pos h]
    simp [RFloat.scalePos, RFloat.addFin]
  · rw [if_neg (lt_irrefl 0), if_pos rfl]
    rfl
  · intro h
    rw [if_neg (not_lt.mpr h.le), if_neg h.ne]
    rfl

/-- C5 witness at `mo = 10` (finite branch) and `mo = -1` (NaN branch). -/
theorem mw_domain_witness :
    ((0 : ℝ) < 10 ∧
      mwF 10 6.0333 = RFloat.finite ((2 / 3) * Real.logb 10 10 + 6.0333)) ∧
    ((-1 : ℝ) < 0 ∧ mwF (-1) 6.0333 = RFloat.nan) :=
  ⟨⟨by norm_num, (mw_domain 10 6.0333).1 (by norm_num)⟩,
    ⟨by norm_num, (mw_domain (-1) 6.0333).2.2 (by norm_num)⟩⟩

/-- C6: wherever the frequency array holds `0`, `source_scf` returns the
long-period plateau `llpsp` at that position, for `fc ≠ 0`, `gam ≠ 0` and
`gam * n > 0`. -/
theorem source_scf_plateau (f : List ℝ) (llpsp fc gam n : ℝ)
    (hfc : fc ≠ 0) (hg : gam ≠ 0) (hgn : 0 < gam * n)
    (i : ℕ) (h0 : f[i]? = some 0) :
    (source_scf f llpsp fc gam n)[i]? = some llpsp := by
  unfold source_scf
  rw [List.getElem?_map, h0]
  simp [source_scf_kernel, Real.zero_rpow hgn.ne']

/-- C6 witness at `f = [0]`, `llpsp = 5`, `fc = 1`, `gam = 1`, `n = 2`. -/
theorem source_scf_plateau_witness :
    (1 : ℝ) ≠ 0 ∧ (0 : ℝ) < 1 * 2 ∧
    (source_scf [0] 5 1 1 2)[0]? = some 5 :=
  ⟨by norm_num, by norm_num,
    source_scf_plateau [0] 5 1 1 2 (by norm_num) (by norm_num) (by norm_num)
      0 rfl⟩

/-- C7: for positive `fc`, `gam`, `n`, the source spectrum `source_scf` is
monotonically non-increasing in the frequency over `[0, ∞)`. -/
theorem source_scf_antitone (llpsp fc gam n f1 f2 : ℝ)
    (hfc : 0 < fc) (hg : 0 < gam) (hn : 0 < n)
    (h0 : 0 ≤ f1) (h12 : f1 ≤ f2) :
    source_scf_kernel f2 llpsp fc gam n ≤
      source_scf_kernel f1 llpsp fc gam n := by
  unfold source_scf_kernel
  have hgn : (0 : ℝ) < gam * n := mul_pos hg hn
  have hx1 : (0 : ℝ) ≤ f1 / fc := div_nonneg h0 hfc.le
  have hx12 : f1 / fc ≤ f2 / fc := by gcongr
  have hr : (f1 / fc) ^ (gam * n) ≤ (f2 / fc) ^ (gam * n) :=
    Real.rpow_le_rpow hx1 hx12 hgn.le
  have hpos : (0 : ℝ) < 1 + (f1 / fc) ^ (gam * n) := by
    have := Real.rpow_nonneg hx1 (gam * n)
    linarith
  have hlog : Real.logb 10 (1 + (f1 / fc) ^ (gam * n)) ≤
      Real.logb 10 (1 + (f2 / fc) ^ (gam * n)) :=
    Real.logb_le_logb_of_le (by norm_num) hpos (by linarith)
  have hmul : (1 / gam) * Real.logb 10 (1 + (f1 / fc) ^ (gam * n)) ≤
      (1 / gam) * Real.logb 10 (1 + (f2 / fc) ^ (gam * n)) :=
    mul_le_mul_of_nonneg_left hlog (by positivity)
  linarith

/-- C7 witness at `f1 = 0 ≤ f2 = 1`, `fc = 1`, `gam = 1`, `n = 2`. -/
theorem source_scf_antitone_witness :
    (0 : ℝ) < 1 ∧ (0 : ℝ) ≤ 0 ∧ (0 : ℝ) ≤ 1 ∧
    source_scf_kernel 1 0 1 1 2 ≤ source_scf_kernel 0 0 1 1 2 :=
  ⟨by norm_num, le_refl 0, by norm_num,
    source_scf_antitone 0 1 1 2 0 1 (by norm_num) (by norm_num) (by norm_num)
      (le_refl 0) (by norm_num)⟩

/-- C8: `single_geospreading` returns `-p * log10(R)` for positive scalar
`R`, maps element-wise over an array `R`, and in particular returns `0` at
`R = 1, p = 1` and `-1` at `R = 10, p = 1`. -/
theorem single_geospreading_spec :
    (∀ R p : ℝ, 0 < R → single_geospreading R p = -p * Real.logb 10 R) ∧
    (∀ (l : List ℝ) (p : ℝ),
      single_geospreading_arr l p = l.map (fun R => -p * Real.logb 10 R)) ∧
    single_geospreading 1 1 = 0 ∧
    single_geospreading 10 1 = -1 := by
  refine ⟨fun R p _ => rfl, fun l p => rfl, ?_, ?_⟩
  · simp [single_geospreading]
  · rw [single_geospreading, Real.logb_self_eq_one (by norm_num)]
    norm_num

/-- C8 witness for the hypothesis-bearing conjunct, at `R = 2`, `p = 3`. -/
theorem single_geospreading_spec_witness :
    (0 : ℝ) < 2 ∧ single_geospreading 2 3 = -3 * Real.logb 10 2 :=
  ⟨by norm_num, single_geospreading_spec.1 2 3 (by norm_num)⟩

/-- C9: at `a = 0` the two attenuation formulas differ by exactly `b²`:
`f_dep_attenuation f 0 Q R b` succeeds and equals `b² · f_idep_attenutation
f Q R b` element-wise, for `Q ≠ 0` and `b ≠ 0`. -/
theorem f_dep_attenuation_a_zero (f : List ℝ) (Q R b : ℝ)
    (hQ : Q ≠ 0) (hb : b ≠ 0) :
    f_dep_attenuation f 0 Q R b =
      Except.ok ((f_idep_attenutation f Q R b).map (fun x => b ^ 2 * x)) := by
  unfold f_dep_attenuation f_idep_attenutation
  rw [if_pos ⟨le_refl 0, by norm_num⟩, List.map_map]
  refine congrArg Except.ok (List.map_congr_left fun x hx => ?_)
  have hl : Real.log 10 ≠ 0 := (Real.log_pos (by norm_num)).ne'
  simp only [Function.comp_apply, f_dep_kernel, f_idep_kernel, sub_zero,
    Real.rpow_one]
  field_simp
  ring

/-- C9 witness at `f = [1]`, `Q = 2`, `R = 3`, `b = 5`. -/
theorem f_dep_attenuation_a_zero_witness :
    (2 : ℝ) ≠ 0 ∧ (5 : ℝ) ≠ 0 ∧
    f_dep_attenuation [1] 0 2 3 5 =
      Except.ok ((f_idep_attenutation [1] 2 3 5).map (fun x => 5 ^ 2 * x)) :=
  ⟨by norm_num, by norm_num,
    f_dep_attenuation_a_zero [1] 2 3 5 (by norm_num) (by norm_num)⟩

/-- C10: on strictly positive frequencies, the `'acc'` branch of
`motion_factor` is element-wise twice the `'vel'` branch. -/
theorem motion_factor_acc_two_vel (f : List ℝ) (hf : ∀ x ∈ f, 0 < x) :
    ∃ v : List ℝ, motion_factor f "vel" = Except.ok (MotionOut.arr v) ∧
      motion_factor f "acc" =
        Except.ok (MotionOut.arr (v.map (fun y => 2 * y))) := by
  have hv : pyLower "vel" = "vel" := by decide
  have ha : pyLower "acc" = "acc" := by decide
  have hv1 : ¬("vel" ∉ ["disp", "vel", "acc"]) := by decide
  have hv2 : ("vel" : String) ≠ "disp" := by decide
  have ha1 : ¬("acc" ∉ ["disp", "vel", "acc"]) := by decide
  have ha2 : ("acc" : String) ≠ "disp" := by decide
  have ha3 : ("acc" : String) ≠ "vel" := by decide
  refine ⟨f.map motion_vel_kernel, ?_, ?_⟩
  · simp [motion_factor, hv, hv1, hv2]
  · have hmap : (f.map motion_vel_kernel).map (fun y => 2 * y) =
        f.map motion_acc_kernel := by
      rw [List.map_map]
      refine List.map_congr_left fun x hx => ?_
      simp only [Function.comp_apply, motion_vel_kernel, motion_acc_kernel]
      rw [Real.logb_pow]
      norm_num
    rw [hmap]
    simp [motion_factor, ha, ha1, ha2, ha3]

/-- C10 witness at `f = [1]`. -/
theorem motion_factor_acc_two_vel_witness :
    (∀ x ∈ [(1 : ℝ)], 0 < x) ∧
    ∃ v : List ℝ, motion_factor [1] "vel" = Except.ok (MotionOut.arr v) ∧
      motion_factor [1] "acc" =
        Except.ok (MotionOut.arr (v.map (fun y => 2 * y))) :=
  ⟨by norm_num, motion_factor_acc_two_vel [1] (by norm_num)⟩

end Eqstochsim
